import Mathlib

/-!
Shallow embedding of `task.py` (a single-file to-do list application).

The program defines two classes:

* `Task`: a value object with fields `description`, `priority`, `due_date`,
  `completed`, `created_at`, plus `to_dict` / `from_dict` for JSON
  (de)serialization.  `created_at` is a Python `datetime`, serialized with
  `datetime.isoformat()` and parsed back with `datetime.fromisoformat()`.
* `TodoList`: owns `self.tasks` (a Python list of `Task`) and a backing JSON
  file; `add_task`, `list_tasks`, `mark_task_complete`, `remove_task`,
  `save_tasks`, `load_tasks`.

Machine-level conventions of the embedding:

* Python `datetime` values are modelled by the `DateTime` structure below,
  with `isoformat` producing the canonical text
  `YYYY-MM-DDTHH:MM:SS[.ffffff]` (microseconds omitted exactly when zero,
  as CPython does) and `fromisoformat` parsing the grammar CPython accepts
  on such canonical strings (full date, optional time, optional 3- or
  6-digit fraction), range-validating fields as the `datetime` constructor
  does.  `Option.none` models the `ValueError` raised on unparseable text.
* JSON values are the inductive `Json`; a JSON object is an association
  list (keys produced by `json.load` are unique, so first-match lookup
  agrees with Python dict lookup).
* Exceptions raised while building a `Task` from a dict are the error
  side of `Except LoadErr _`: `KeyError` for a missing key, `ValueError`
  for an unparseable timestamp, `TypeError` for a value of the wrong
  shape (the embedding types the `Task` fields as the program always
  constructs them: strings, optional string, boolean).
* The backing file is modelled by `DiskFile`: absent, unparseable bytes
  (`json.load` raises `JSONDecodeError`), or a parsed JSON value.
* Python list indexing `tasks[i]` with wrap-around for negative `i` is
  `pyIndex`; out of range models `IndexError`.
-/

/-- Decimal digit character for d < 10 (the characters `str` renders). -/
def dChar (d : Nat) : Char := Char.ofNat (48 + d)

/-- Numeric value of a decimal digit character, none on a non-digit. -/
def digit? (c : Char) : Option Nat :=
  if '0' ≤ c ∧ c ≤ '9' then some (c.toNat - 48) else none

theorem digit?_dChar (d : Nat) (h : d < 10) : digit? (dChar d) = some d := by
  interval_cases d <;> decide

/-- Two-digit zero-padded rendering, as `%02d` in `datetime.isoformat`. -/
def pad2 (n : Nat) : List Char := [dChar (n / 10), dChar (n % 10)]

/-- Four-digit zero-padded rendering (the year field of `isoformat`). -/
def pad4 (n : Nat) : List Char :=
  [dChar (n / 1000), dChar (n / 100 % 10), dChar (n / 10 % 10), dChar (n % 10)]

/-- Six-digit zero-padded rendering (the microsecond field of `isoformat`). -/
def pad6 (n : Nat) : List Char :=
  [dChar (n / 100000), dChar (n / 10000 % 10), dChar (n / 1000 % 10),
   dChar (n / 100 % 10), dChar (n / 10 % 10), dChar (n % 10)]

/-- Parse exactly two decimal digits, returning the value and the rest. -/
def parse2 (cs : List Char) : Option (Nat × List Char) :=
  match cs with
  | c1 :: c2 :: r =>
    match digit? c1, digit? c2 with
    | some a, some b => some (10 * a + b, r)
    | _, _ => none
  | _ => none

/-- Parse exactly four decimal digits, returning the value and the rest. -/
def parse4 (cs : List Char) : Option (Nat × List Char) :=
  match cs with
  | c1 :: c2 :: c3 :: c4 :: r =>
    match digit? c1, digit? c2, digit? c3, digit? c4 with
    | some a, some b, some c, some d => some (1000 * a + 100 * b + 10 * c + d, r)
    | _, _, _, _ => none
  | _ => none

/-- Parse the fractional-seconds digits after the dot: CPython's
`fromisoformat` (pre-3.11 grammar) accepts exactly 3 or 6 digits. -/
def parseFrac (cs : List Char) : Option Nat :=
  match cs with
  | [c1, c2, c3, c4, c5, c6] =>
    match digit? c1, digit? c2, digit? c3, digit? c4, digit? c5, digit? c6 with
    | some a, some b, some c, some d, some e, some f =>
      some (100000 * a + 10000 * b + 1000 * c + 100 * d + 10 * e + f)
    | _, _, _, _, _, _ => none
  | [c1, c2, c3] =>
    match digit? c1, digit? c2, digit? c3 with
    | some a, some b, some c => some ((100 * a + 10 * b + c) * 1000)
    | _, _, _ => none
  | _ => none

/-- Consume one expected character. -/
def expect (c : Char) (cs : List Char) : Option (List Char) :=
  match cs with
  | c' :: r => if c' = c then some r else none
  | [] => none

theorem parse2_pad2 (n : Nat) (h : n < 100) (r : List Char) :
    parse2 (pad2 n ++ r) = some (n, r) := by
  have h1 : n / 10 < 10 := by omega
  have h2 : n % 10 < 10 := by omega
  simp only [pad2, List.cons_append, List.nil_append, parse2,
    digit?_dChar _ h1, digit?_dChar _ h2]
  congr 2
  omega

theorem parse4_pad4 (n : Nat) (h : n < 10000) (r : List Char) :
    parse4 (pad4 n ++ r) = some (n, r) := by
  have h1 : n / 1000 < 10 := by omega
  have h2 : n / 100 % 10 < 10 := by omega
  have h3 : n / 10 % 10 < 10 := by omega
  have h4 : n % 10 < 10 := by omega
  simp only [pad4, List.cons_append, List.nil_append, parse4,
    digit?_dChar _ h1, digit?_dChar _ h2, digit?_dChar _ h3, digit?_dChar _ h4]
  congr 2
  omega

theorem parseFrac_pad6 (n : Nat) (h : n < 1000000) :
    parseFrac (pad6 n) = some n := by
  have h1 : n / 100000 < 10 := by omega
  have h2 : n / 10000 % 10 < 10 := by omega
  have h3 : n / 1000 % 10 < 10 := by omega
  have h4 : n / 100 % 10 < 10 := by omega
  have h5 : n / 10 % 10 < 10 := by omega
  have h6 : n % 10 < 10 := by omega
  simp only [pad6, parseFrac, digit?_dChar _ h1, digit?_dChar _ h2,
    digit?_dChar _ h3, digit?_dChar _ h4, digit?_dChar _ h5, digit?_dChar _ h6]
  congr 1
  omega

/-- Python `datetime` value: naive local timestamp, microsecond precision. -/
structure DateTime where
  year : Nat
  month : Nat
  day : Nat
  hour : Nat
  minute : Nat
  second : Nat
  microsecond : Nat
deriving DecidableEq, Repr

/-- Gregorian leap-year test, as `calendar.isleap` / `datetime` use. -/
def isLeap (y : Nat) : Bool := y % 4 = 0 && (y % 100 != 0 || y % 400 = 0)

/-- Days in a month, as the `datetime` constructor validates them. -/
def daysInMonth (y m : Nat) : Nat :=
  if m = 2 then (if isLeap y then 29 else 28)
  else if m = 4 || m = 6 || m = 9 || m = 11 then 30
  else 31

/-- Field ranges accepted by the Python `datetime` constructor
(MINYEAR = 1, MAXYEAR = 9999). Every value `datetime.now()` returns is
valid. -/
def DateTime.Valid (dt : DateTime) : Prop :=
  1 ≤ dt.year ∧ dt.year ≤ 9999 ∧ 1 ≤ dt.month ∧ dt.month ≤ 12 ∧
  1 ≤ dt.day ∧ dt.day ≤ daysInMonth dt.year dt.month ∧
  dt.hour ≤ 23 ∧ dt.minute ≤ 59 ∧ dt.second ≤ 59 ∧ dt.microsecond ≤ 999999

instance (dt : DateTime) : Decidable dt.Valid := by
  unfold DateTime.Valid
  infer_instance

/-- Build a datetime after constructor-style range validation; `none`
models the ValueError the `datetime` constructor raises. -/
def mkValidated (y mo d h mi s us : Nat) : Option DateTime :=
  if 1 ≤ y ∧ y ≤ 9999 ∧ 1 ≤ mo ∧ mo ≤ 12 ∧ 1 ≤ d ∧ d ≤ daysInMonth y mo ∧
     h ≤ 23 ∧ mi ≤ 59 ∧ s ≤ 59 ∧ us ≤ 999999
  then some ⟨y, mo, d, h, mi, s, us⟩ else none

/-- Character-list form of `datetime.isoformat()`: `YYYY-MM-DDTHH:MM:SS`
followed by `.ffffff` exactly when the microsecond field is nonzero. -/
def DateTime.isoChars (dt : DateTime) : List Char :=
  pad4 dt.year ++ '-' :: pad2 dt.month ++ '-' :: pad2 dt.day ++
  'T' :: pad2 dt.hour ++ ':' :: pad2 dt.minute ++ ':' :: pad2 dt.second ++
  (if dt.microsecond = 0 then [] else '.' :: pad6 dt.microsecond)

/-- Python `datetime.isoformat()`. -/
def DateTime.isoformat (dt : DateTime) : String := ⟨dt.isoChars⟩

/-- Core of `datetime.fromisoformat` on character lists: a full date,
optionally a separator character (CPython accepts any character at that
position) and a time, optionally a 3- or 6-digit fraction.  Fields are
range-validated like the `datetime` constructor. -/
def fromisoChars (cs : List Char) : Option DateTime :=
  match parse4 cs with
  | none => none
  | some (y, r0) =>
    match expect '-' r0 with
    | none => none
    | some r1 =>
      match parse2 r1 with
      | none => none
      | some (mo, r2) =>
        match expect '-' r2 with
        | none => none
        | some r3 =>
          match parse2 r3 with
          | none => none
          | some (d, r4) =>
            match r4 with
            | [] => mkValidated y mo d 0 0 0 0
            | _sep :: r5 =>
              match parse2 r5 with
              | none => none
              | some (h, r6) =>
                match expect ':' r6 with
                | none => none
                | some r7 =>
                  match parse2 r7 with
                  | none => none
                  | some (mi, r8) =>
                    match expect ':' r8 with
                    | none => none
                    | some r9 =>
                      match parse2 r9 with
                      | none => none
                      | some (s, r10) =>
                        match r10 with
                        | [] => mkValidated y mo d h mi s 0
                        | '.' :: r11 =>
                          match parseFrac r11 with
                          | none => none
                          | some us => mkValidated y mo d h mi s us
                        | _ => none

/-- Python `datetime.fromisoformat`; `none` models the raised ValueError. -/
def fromisoformat (s : String) : Option DateTime := fromisoChars s.data

theorem expect_cons_self (c : Char) (r : List Char) : expect c (c :: r) = some r := by
  simp [expect]

theorem daysInMonth_le (y m : Nat) : daysInMonth y m ≤ 31 := by
  unfold daysInMonth
  split
  · split <;> omega
  · split <;> omega

theorem parse2_pad2_nil (n : Nat) (h : n < 100) : parse2 (pad2 n) = some (n, []) := by
  have h2 := parse2_pad2 n h []
  rwa [List.append_nil] at h2

theorem fromisoChars_canonical (y mo d h mi s us : Nat)
    (hy1 : 1 ≤ y) (hy2 : y ≤ 9999) (hmo2 : mo ≤ 12)
    (hd2 : d ≤ daysInMonth y mo) (hmo1 : 1 ≤ mo) (hd1 : 1 ≤ d)
    (hh : h ≤ 23) (hmi : mi ≤ 59) (hs : s ≤ 59) (hus : us ≤ 999999) :
    fromisoChars (pad4 y ++ '-' :: pad2 mo ++ '-' :: pad2 d ++
      'T' :: pad2 h ++ ':' :: pad2 mi ++ ':' :: pad2 s ++
      (if us = 0 then [] else '.' :: pad6 us)) =
    some ⟨y, mo, d, h, mi, s, us⟩ := by
  by_cases hz : us = 0
  · subst hz
    rw [show (if (0 : Nat) = 0 then ([] : List Char) else '.' :: pad6 0) = [] from rfl]
    simp only [fromisoChars, List.append_assoc, List.cons_append, List.append_nil,
      parse4_pad4 y (by omega), expect_cons_self,
      parse2_pad2 mo (by omega),
      parse2_pad2 d (by have := daysInMonth_le y mo; omega),
      parse2_pad2 h (by omega), parse2_pad2 mi (by omega),
      parse2_pad2_nil s (by omega), mkValidated]
    exact if_pos ⟨hy1, hy2, hmo1, hmo2, hd1, hd2, hh, hmi, hs, by omega⟩
  · rw [if_neg hz]
    simp only [fromisoChars, List.append_assoc, List.cons_append,
      parse4_pad4 y (by omega), expect_cons_self,
      parse2_pad2 mo (by omega),
      parse2_pad2 d (by have := daysInMonth_le y mo; omega),
      parse2_pad2 h (by omega), parse2_pad2 mi (by omega),
      parse2_pad2 s (by omega), parseFrac_pad6 us (by omega), mkValidated]
    exact if_pos ⟨hy1, hy2, hmo1, hmo2, hd1, hd2, hh, hmi, hs, hus⟩

theorem fromisoformat_isoformat (dt : DateTime) (h : dt.Valid) :
    fromisoformat dt.isoformat = some dt := by
  obtain ⟨y, mo, d, hh, mi, s, us⟩ := dt
  obtain ⟨hy1, hy2, hmo1, hmo2, hd1, hd2, hhh, hmi, hs, hus⟩ := h
  exact fromisoChars_canonical y mo d hh mi s us hy1 hy2 hmo2 hd2 hmo1 hd1 hhh hmi hs hus

namespace Todo

/-- JSON values as `json.load` / `json.dump` handle them.  Numbers are
modelled as integers (this program never stores numbers); an object is
an association list with the unique keys `json.load` produces. -/
inductive Json where
  | null
  | bool (b : Bool)
  | str (s : String)
  | num (n : Int)
  | arr (items : List Json)
  | obj (entries : List (String × Json))
deriving Repr

/-- Python exceptions that can escape `Task.from_dict` and
`TodoList.load_tasks`: `KeyError` on a missing dict key, `ValueError`
from `datetime.fromisoformat`, `TypeError` for a value of the wrong
shape. -/
inductive LoadErr where
  | keyError (key : String)
  | typeError
  | valueError
deriving DecidableEq, Repr

/-- Python dict lookup `data[k]`; raises KeyError when the key is absent. -/
def getKey (data : List (String × Json)) (k : String) : Except LoadErr Json :=
  match data with
  | [] => .error (.keyError k)
  | (k', v) :: rest => if k' = k then .ok v else getKey rest k

/-- Coerce a JSON value to a string, as the well-typed uses of
`data['description']`, `data['priority']`, `data['created_at']` expect. -/
def asStr (v : Json) : Except LoadErr String :=
  match v with
  | .str s => .ok s
  | _ => .error .typeError

/-- Coerce a JSON value to a boolean (`data['completed']`). -/
def asBool (v : Json) : Except LoadErr Bool :=
  match v with
  | .bool b => .ok b
  | _ => .error .typeError

/-- Coerce a JSON value to an optional string (`data['due_date']`,
where Python `None` is JSON `null`). -/
def asOptStr (v : Json) : Except LoadErr (Option String) :=
  match v with
  | .null => .ok none
  | .str s => .ok (some s)
  | _ => .error .typeError

/-- One task, with the fields the `Task.__init__` constructor sets.
The constructor's defaults are priority `medium`, no due date, not
completed; `created_at` is `datetime.now()` at construction time, which
the embedding passes in explicitly. -/
structure Task where
  description : String
  priority : String
  due_date : Option String
  completed : Bool
  created_at : DateTime
deriving DecidableEq, Repr

/-- Python `None` versus string for the serialized due date. -/
def optStrJson (v : Option String) : Json :=
  match v with
  | none => .null
  | some s => .str s

/-- Task.to_dict: the serialized mapping, in the key order the source
dict literal writes. -/
def Task.to_dict (t : Task) : List (String × Json) :=
  [("description", .str t.description),
   ("priority", .str t.priority),
   ("due_date", optStrJson t.due_date),
   ("completed", .bool t.completed),
   ("created_at", .str t.created_at.isoformat)]

/-- Task.from_dict: reads the five keys in the source's evaluation
order (the four constructor arguments left to right, then
`created_at`), parses the timestamp with `fromisoformat`, and
overwrites the freshly constructed record's `created_at` with it. -/
def Task.from_dict (data : List (String × Json)) : Except LoadErr Task := do
  let d ← asStr (← getKey data "description")
  let p ← asStr (← getKey data "priority")
  let u ← asOptStr (← getKey data "due_date")
  let c ← asBool (← getKey data "completed")
  let ts ← asStr (← getKey data "created_at")
  match fromisoformat ts with
  | some dt => .ok ⟨d, p, u, c, dt⟩
  | none => .error .valueError

/-- Contents of the backing file: absent, bytes `json.load` rejects
with JSONDecodeError, or a parsed JSON value.  `json.dump` is
deterministic, so equal JSON values mean byte-for-byte equal files. -/
inductive DiskFile where
  | absent
  | corrupt
  | content (j : Json)
deriving Repr

/-- Serialization of the whole task list, as `save_tasks` writes it:
`json.dump([task.to_dict() for task in self.tasks], f, indent=2)`. -/
def dumpTasks (tasks : List Task) : Json :=
  .arr (tasks.map fun t => .obj t.to_dict)

/-- The store: `self.tasks` paired with the contents at `self.filename`
(the embedding carries the file alongside the object to state
persistence properties; the path itself plays no further role). -/
structure TodoList where
  tasks : List Task
  file : DiskFile
deriving Repr

/-- TodoList.save_tasks: full rewrite of the backing file with the
serialized current sequence. -/
def TodoList.save_tasks (s : TodoList) : TodoList :=
  ⟨s.tasks, .content (dumpTasks s.tasks)⟩

/-- One element of the loaded array: `Task.from_dict(task)`; a
non-object element makes the subscripts in `from_dict` raise
TypeError. -/
def parseItem (j : Json) : Except LoadErr Task :=
  match j with
  | .obj kvs => Task.from_dict kvs
  | _ => .error .typeError

/-- The list comprehension `[Task.from_dict(task) for task in
task_data]`: elements in order, first raised exception escapes. -/
def parseTasks (items : List Json) : Except LoadErr (List Task) :=
  match items with
  | [] => .ok []
  | x :: rest => do
    let t ← parseItem x
    let ts ← parseTasks rest
    .ok (t :: ts)

/-- TodoList.load_tasks: nothing happens when the file is absent
(`self.tasks` keeps the `[]` set by `__init__`); JSONDecodeError is
caught and leaves `self.tasks = []`; a parsed value is iterated and
each element passed to `Task.from_dict` — exceptions raised there
(KeyError, ValueError, TypeError) are NOT in the except clause and
escape.  Iterating a non-array parsed value also raises TypeError
inside `from_dict`'s subscripting, uncaught. -/
def load_tasks (f : DiskFile) : Except LoadErr (List Task) :=
  match f with
  | .absent => .ok []
  | .corrupt => .ok []
  | .content (.arr items) => parseTasks items
  | .content _ => .error .typeError

/-- TodoList.__init__: set `self.tasks = []`, then `load_tasks()`.  An
exception escaping `load_tasks` aborts construction. -/
def TodoList.init (f : DiskFile) : Except LoadErr TodoList :=
  match load_tasks f with
  | .ok ts => .ok ⟨ts, f⟩
  | .error e => .error e

/-- Python list indexing `xs[i]` on a list of length `n`: a negative
`i` counts from the end; out of range raises IndexError (`none`). -/
def pyIndex (n : Nat) (i : Int) : Option Nat :=
  if 0 ≤ i then (if i < (n : Int) then some i.toNat else none)
  else (if 0 ≤ i + (n : Int) then some (i + (n : Int)).toNat else none)

/-- TodoList.add_task: construct a Task (completed defaults to false,
`created_at` is the current time `now`), append it, save. -/
def TodoList.add_task (s : TodoList) (now : DateTime) (description : String)
    (priority : String) (due_date : Option String) : TodoList :=
  TodoList.save_tasks ⟨s.tasks ++ [⟨description, priority, due_date, false, now⟩], s.file⟩

/-- TodoList.list_tasks: when `self.tasks` is empty, print "No tasks
found." and return (no task lines); otherwise print the tasks selected
by the filter.  Returns the unchanged store paired with the sequence of
tasks the loop prints. -/
def TodoList.list_tasks (s : TodoList) (filter_type : Option String) :
    TodoList × List Task :=
  if s.tasks.isEmpty then (s, [])
  else if filter_type = some "completed" then (s, s.tasks.filter fun t => t.completed)
  else if filter_type = some "pending" then (s, s.tasks.filter fun t => !t.completed)
  else (s, s.tasks)

/-- TodoList.mark_task_complete: `self.tasks[task_index - 1].completed =
True` then save; IndexError is caught and prints "Invalid task
index.".  The boolean reports which branch ran (true = marked and
saved). -/
def TodoList.mark_task_complete (s : TodoList) (task_index : Int) :
    TodoList × Bool :=
  match pyIndex s.tasks.length (task_index - 1) with
  | some k =>
    match s.tasks.get? k with
    | some t =>
      (TodoList.save_tasks ⟨s.tasks.set k { t with completed := true }, s.file⟩, true)
    | none => (s, false)
  | none => (s, false)

/-- TodoList.remove_task: `self.tasks.pop(task_index - 1)` then save;
IndexError caught as above.  True means a task was removed and saved. -/
def TodoList.remove_task (s : TodoList) (task_index : Int) :
    TodoList × Bool :=
  match pyIndex s.tasks.length (task_index - 1) with
  | some k => (TodoList.save_tasks ⟨s.tasks.eraseIdx k, s.file⟩, true)
  | none => (s, false)

/-! ## Claim theorems -/

/-- C3: for every valid Task record r (any description, priority text, due
date, completed flag, and creation timestamp), deserializing the serialized
record reproduces all five fields exactly, including the created_at instant;
from_dict installs the parsed timestamp rather than recomputing one. -/
theorem claim_c3_roundtrip (t : Task) (h : t.created_at.Valid) :
    Task.from_dict (Task.to_dict t) = .ok t := by
  obtain ⟨d, p, u, c, ca⟩ := t
  cases u <;>
    simp [Task.from_dict, Task.to_dict, getKey, asStr, asBool, asOptStr, optStrJson,
      Bind.bind, Except.bind, fromisoformat_isoformat ca h]

/-- Witness for C3 at a concrete record (a leap-day timestamp with
microseconds). -/
theorem claim_c3_roundtrip_witness :
    (⟨"Buy milk", "high", some "tomorrow", true,
        ⟨2024, 2, 29, 13, 45, 7, 123456⟩⟩ : Task).created_at.Valid ∧
    Task.from_dict (Task.to_dict
        ⟨"Buy milk", "high", some "tomorrow", true, ⟨2024, 2, 29, 13, 45, 7, 123456⟩⟩) =
      .ok ⟨"Buy milk", "high", some "tomorrow", true, ⟨2024, 2, 29, 13, 45, 7, 123456⟩⟩ :=
  ⟨by decide, claim_c3_roundtrip _ (by decide)⟩

/-- C4: a backing file that exists but does not parse (JSONDecodeError)
yields an empty in-memory sequence, not a fatal error, and so does an
absent file. -/
theorem claim_c4_corrupt_recovery :
    TodoList.init .corrupt = .ok ⟨[], .corrupt⟩ ∧
    TodoList.init .absent = .ok ⟨[], .absent⟩ :=
  ⟨rfl, rfl⟩

theorem parseTasks_error (items : List Json)
    (h : ∃ x ∈ items, ∃ e, parseItem x = Except.error e) :
    ∃ e, parseTasks items = Except.error e := by
  induction items with
  | nil =>
    obtain ⟨x, hx, _⟩ := h
    cases hx
  | cons a rest ih =>
    obtain ⟨x, hx, e, he⟩ := h
    cases hpa : parseItem a with
    | error e1 => exact ⟨e1, by simp [parseTasks, hpa, Bind.bind, Except.bind]⟩
    | ok t =>
      rcases List.mem_cons.mp hx with rfl | hmem
      · rw [hpa] at he
        cases he
      · obtain ⟨e2, he2⟩ := ih ⟨x, hmem, e, he⟩
        exact ⟨e2, by simp [parseTasks, hpa, he2, Bind.bind, Except.bind]⟩

/-- Counterexample to C2 as stated: a file that parses as an array whose
single record is missing required keys makes store initialization raise
(KeyError on the first missing key), instead of starting with an empty
sequence. -/
theorem claim_c2_counterexample :
    TodoList.init (.content (.arr [.obj [("description", .str "a")]])) =
      .error (.keyError "priority") := rfl

/-- C2 amended: when the backing file parses as an array but some record is
malformed (missing key, wrong shape, or unparseable created_at), the
exception escapes load_tasks uncaught and store construction fails; the
load is NOT recovered to an empty sequence (only JSONDecodeError and an
absent file are). -/
theorem claim_c2_malformed_is_fatal (items : List Json)
    (h : ∃ x ∈ items, ∃ e, parseItem x = Except.error e) :
    ∃ e, TodoList.init (.content (.arr items)) = Except.error e := by
  obtain ⟨e, he⟩ := parseTasks_error items h
  exact ⟨e, by simp [TodoList.init, load_tasks, he]⟩

/-- Witness for C2 (amended) at a concrete one-record file. -/
theorem claim_c2_malformed_is_fatal_witness :
    ∃ e, TodoList.init (.content (.arr [.obj [("description", .str "b")]])) =
      Except.error e :=
  claim_c2_malformed_is_fatal [.obj [("description", .str "b")]]
    ⟨.obj [("description", .str "b")], by simp, .keyError "priority", rfl⟩

theorem getKey_of_not_mem (data : List (String × Json)) (k : String)
    (h : ∀ kv ∈ data, kv.1 ≠ k) : getKey data k = .error (.keyError k) := by
  induction data with
  | nil => rfl
  | cons kv rest ih =>
    obtain ⟨k1, v1⟩ := kv
    have hk1 : k1 ≠ k := h (k1, v1) (List.mem_cons_self _ _)
    simp only [getKey, if_neg hk1]
    exact ih fun kv hkv => h kv (List.mem_cons_of_mem _ hkv)

/-- C10: from_dict requires the due_date key: any mapping without it fails
(even though a null due_date value is accepted and yields a record with no
due date). -/
theorem claim_c10_due_date_required :
    (∀ data : List (String × Json), (∀ kv ∈ data, kv.1 ≠ "due_date") →
      ∃ e, Task.from_dict data = Except.error e) ∧
    (∀ (d p : String) (b : Bool) (ts : String) (dt : DateTime),
      fromisoformat ts = some dt →
      Task.from_dict [("description", .str d), ("priority", .str p),
        ("due_date", .null), ("completed", .bool b), ("created_at", .str ts)] =
        .ok ⟨d, p, none, b, dt⟩) := by
  constructor
  · intro data h
    have hdd := getKey_of_not_mem data "due_date" h
    cases h1 : getKey data "description" with
    | error e => exact ⟨e, by simp [Task.from_dict, Bind.bind, Except.bind, h1]⟩
    | ok v1 =>
      cases h2 : asStr v1 with
      | error e => exact ⟨e, by simp [Task.from_dict, Bind.bind, Except.bind, h1, h2]⟩
      | ok s1 =>
        cases h3 : getKey data "priority" with
        | error e => exact ⟨e, by simp [Task.from_dict, Bind.bind, Except.bind, h1, h2, h3]⟩
        | ok v2 =>
          cases h4 : asStr v2 with
          | error e =>
            exact ⟨e, by simp [Task.from_dict, Bind.bind, Except.bind, h1, h2, h3, h4]⟩
          | ok s2 =>
            exact ⟨.keyError "due_date",
              by simp [Task.from_dict, Bind.bind, Except.bind, h1, h2, h3, h4, hdd]⟩
  · intro d p b ts dt hts
    simp [Task.from_dict, getKey, asStr, asBool, asOptStr, Bind.bind, Except.bind, hts]

/-- Witness for C10: a mapping with the other four keys but no due_date
fails; the same mapping with a null due_date succeeds with no due date. -/
theorem claim_c10_due_date_required_witness :
    (∃ e, Task.from_dict [("description", .str "a"), ("priority", .str "m"),
        ("completed", .bool false), ("created_at", .str "2024-01-02T03:04:05")] =
        Except.error e) ∧
    Task.from_dict [("description", .str "a"), ("priority", .str "m"),
        ("due_date", .null), ("completed", .bool false),
        ("created_at", .str "2024-01-02T03:04:05")] =
      .ok ⟨"a", "m", none, false, ⟨2024, 1, 2, 3, 4, 5, 0⟩⟩ :=
  ⟨claim_c10_due_date_required.1 _ (by decide),
   claim_c10_due_date_required.2 "a" "m" false _ _ (by decide)⟩

/-- C1 is contradicted by the code at index 0 on a non-empty store: Python
negative indexing wraps `tasks[0 - 1]` to the last element, so
mark_task_complete(0) marks the (only) task and rewrites the file, and
remove_task(0) removes it — neither reports an invalid index.  Index
length + 1 does fail and leaves the store and file untouched. -/
theorem claim_c1_zero_wraps_to_last :
    TodoList.mark_task_complete
        ⟨[⟨"a", "medium", none, false, ⟨2024, 1, 2, 3, 4, 5, 0⟩⟩],
         .content (dumpTasks [⟨"a", "medium", none, false, ⟨2024, 1, 2, 3, 4, 5, 0⟩⟩])⟩ 0 =
      (⟨[⟨"a", "medium", none, true, ⟨2024, 1, 2, 3, 4, 5, 0⟩⟩],
        .content (dumpTasks [⟨"a", "medium", none, true, ⟨2024, 1, 2, 3, 4, 5, 0⟩⟩])⟩, true) ∧
    TodoList.remove_task
        ⟨[⟨"a", "medium", none, false, ⟨2024, 1, 2, 3, 4, 5, 0⟩⟩],
         .content (dumpTasks [⟨"a", "medium", none, false, ⟨2024, 1, 2, 3, 4, 5, 0⟩⟩])⟩ 0 =
      (⟨[], .content (dumpTasks [])⟩, true) ∧
    TodoList.mark_task_complete
        ⟨[⟨"a", "medium", none, false, ⟨2024, 1, 2, 3, 4, 5, 0⟩⟩],
         .content (dumpTasks [⟨"a", "medium", none, false, ⟨2024, 1, 2, 3, 4, 5, 0⟩⟩])⟩ 2 =
      (⟨[⟨"a", "medium", none, false, ⟨2024, 1, 2, 3, 4, 5, 0⟩⟩],
        .content (dumpTasks [⟨"a", "medium", none, false, ⟨2024, 1, 2, 3, 4, 5, 0⟩⟩])⟩, false) ∧
    TodoList.remove_task
        ⟨[⟨"a", "medium", none, false, ⟨2024, 1, 2, 3, 4, 5, 0⟩⟩],
         .content (dumpTasks [⟨"a", "medium", none, false, ⟨2024, 1, 2, 3, 4, 5, 0⟩⟩])⟩ 2 =
      (⟨[⟨"a", "medium", none, false, ⟨2024, 1, 2, 3, 4, 5, 0⟩⟩],
        .content (dumpTasks [⟨"a", "medium", none, false, ⟨2024, 1, 2, 3, 4, 5, 0⟩⟩])⟩, false) :=
  ⟨rfl, rfl, rfl, rfl⟩

/-- C5: list(completed) is exactly the completed records, list(pending)
exactly the pending ones, both in original relative order (List.filter keeps
order); list(none) is the full sequence; list never mutates the store (and
hence never touches the backing file). -/
theorem claim_c5_filter_correctness (s : TodoList) :
    (s.list_tasks (some "completed")).2 = s.tasks.filter (fun t => t.completed) ∧
    (s.list_tasks (some "pending")).2 = s.tasks.filter (fun t => !t.completed) ∧
    (s.list_tasks none).2 = s.tasks ∧
    (∀ f, (s.list_tasks f).1 = s) := by
  refine ⟨?_, ?_, ?_, ?_⟩
  · by_cases h : s.tasks.isEmpty
    · unfold TodoList.list_tasks
      rw [if_pos h, List.isEmpty_iff.mp h]
      rfl
    · unfold TodoList.list_tasks
      rw [if_neg h, if_pos rfl]
  · by_cases h : s.tasks.isEmpty
    · unfold TodoList.list_tasks
      rw [if_pos h, List.isEmpty_iff.mp h]
      rfl
    · unfold TodoList.list_tasks
      rw [if_neg h, if_neg (by decide), if_pos rfl]
  · by_cases h : s.tasks.isEmpty
    · unfold TodoList.list_tasks
      rw [if_pos h, List.isEmpty_iff.mp h]
    · unfold TodoList.list_tasks
      rw [if_neg h, if_neg (by decide), if_neg (by decide)]
  · intro f
    unfold TodoList.list_tasks
    split
    · rfl
    · split
      · rfl
      · split
        · rfl
        · rfl

/-- C6: add constructs the record (completed false, created_at now) and
appends it at the end, leaving prior records in place and in order; three
adds to an empty store yield [T1, T2, T3] and list(none) returns them in
that order. -/
theorem claim_c6_add_appends :
    (∀ (s : TodoList) (now : DateTime) (d p : String) (u : Option String),
      (s.add_task now d p u).tasks = s.tasks ++ [⟨d, p, u, false, now⟩]) ∧
    (∀ (f : DiskFile) (n1 n2 n3 : DateTime) (d1 d2 d3 p1 p2 p3 : String)
        (u1 u2 u3 : Option String),
      ((((⟨[], f⟩ : TodoList).add_task n1 d1 p1 u1).add_task n2 d2 p2 u2).add_task
          n3 d3 p3 u3).tasks =
        [⟨d1, p1, u1, false, n1⟩, ⟨d2, p2, u2, false, n2⟩, ⟨d3, p3, u3, false, n3⟩] ∧
      (((((⟨[], f⟩ : TodoList).add_task n1 d1 p1 u1).add_task n2 d2 p2 u2).add_task
          n3 d3 p3 u3).list_tasks none).2 =
        [⟨d1, p1, u1, false, n1⟩, ⟨d2, p2, u2, false, n2⟩, ⟨d3, p3, u3, false, n3⟩]) := by
  exact ⟨fun s now d p u => rfl,
    fun f n1 n2 n3 d1 d2 d3 p1 p2 p3 u1 u2 u3 => ⟨rfl, rfl⟩⟩

/-- C7: every mutating operation that succeeds ends in save_tasks, so the
resulting backing file is exactly the full serialization of the resulting
in-memory sequence (a complete rewrite). -/
theorem claim_c7_file_sync (s : TodoList) :
    (∀ (now : DateTime) (d p : String) (u : Option String),
      (s.add_task now d p u).file = .content (dumpTasks (s.add_task now d p u).tasks)) ∧
    (∀ i : Int, (s.mark_task_complete i).2 = true →
      (s.mark_task_complete i).1.file =
        .content (dumpTasks (s.mark_task_complete i).1.tasks)) ∧
    (∀ i : Int, (s.remove_task i).2 = true →
      (s.remove_task i).1.file = .content (dumpTasks (s.remove_task i).1.tasks)) := by
  refine ⟨fun now d p u => rfl, ?_, ?_⟩
  · intro i h
    rcases hpy : pyIndex s.tasks.length (i - 1) with _ | k
    · simp [TodoList.mark_task_complete, hpy] at h
    · rcases hget : s.tasks.get? k with _ | t
      · rw [List.get?_eq_getElem?] at hget
        simp [TodoList.mark_task_complete, hpy, hget] at h
      · simp only [TodoList.mark_task_complete, hpy, hget]
        rfl
  · intro i h
    rcases hpy : pyIndex s.tasks.length (i - 1) with _ | k
    · simp [TodoList.remove_task, hpy] at h
    · simp only [TodoList.remove_task, hpy]
      rfl

/-- Witness for C7 at a concrete one-task store and index 1. -/
theorem claim_c7_file_sync_witness :
    (TodoList.mark_task_complete
        ⟨[⟨"w", "low", none, false, ⟨2024, 1, 2, 3, 4, 5, 6⟩⟩], .absent⟩ 1).1.file =
      .content (dumpTasks (TodoList.mark_task_complete
        ⟨[⟨"w", "low", none, false, ⟨2024, 1, 2, 3, 4, 5, 6⟩⟩], .absent⟩ 1).1.tasks) ∧
    (TodoList.remove_task
        ⟨[⟨"w", "low", none, false, ⟨2024, 1, 2, 3, 4, 5, 6⟩⟩], .absent⟩ 1).1.file =
      .content (dumpTasks (TodoList.remove_task
        ⟨[⟨"w", "low", none, false, ⟨2024, 1, 2, 3, 4, 5, 6⟩⟩], .absent⟩ 1).1.tasks) ∧
    ((⟨[], DiskFile.absent⟩ : TodoList).add_task ⟨2024, 1, 2, 3, 4, 5, 6⟩ "w" "low" none).file =
      .content (dumpTasks
        ((⟨[], DiskFile.absent⟩ : TodoList).add_task ⟨2024, 1, 2, 3, 4, 5, 6⟩ "w" "low" none).tasks) :=
  ⟨(claim_c7_file_sync _).2.1 1 rfl, (claim_c7_file_sync _).2.2 1 rfl,
   (claim_c7_file_sync _).1 _ _ _ _⟩

/-- C8: for an in-bounds 1-based index, mark_complete succeeds, sets only
the completed flag of record i (description, priority, due_date,
created_at of that record unchanged), and leaves every other record, the
length, and the order unchanged. -/
theorem claim_c8_mark_frame (s : TodoList) (i : Int)
    (h1 : 1 ≤ i) (h2 : i ≤ (s.tasks.length : Int)) :
    (s.mark_task_complete i).2 = true ∧
    (s.mark_task_complete i).1.tasks.length = s.tasks.length ∧
    (∀ j : Nat, j ≠ (i - 1).toNat →
      (s.mark_task_complete i).1.tasks.get? j = s.tasks.get? j) ∧
    (∃ t, s.tasks.get? (i - 1).toNat = some t ∧
      (s.mark_task_complete i).1.tasks.get? (i - 1).toNat =
        some ⟨t.description, t.priority, t.due_date, true, t.created_at⟩) := by
  have hklt : (i - 1).toNat < s.tasks.length := by omega
  have hpy : pyIndex s.tasks.length (i - 1) = some (i - 1).toNat := by
    unfold pyIndex
    rw [if_pos (show (0 : Int) ≤ i - 1 by omega),
      if_pos (show i - 1 < (s.tasks.length : Int) by omega)]
  obtain ⟨t, ht⟩ : ∃ t, s.tasks.get? (i - 1).toNat = some t := by
    rw [List.get?_eq_getElem?, List.getElem?_eq_getElem hklt]
    exact ⟨_, rfl⟩
  refine ⟨?_, ?_, ?_, ⟨t, ht, ?_⟩⟩
  · simp only [TodoList.mark_task_complete, hpy, ht]
  · simp only [TodoList.mark_task_complete, hpy, ht, TodoList.save_tasks,
      List.length_set]
  · intro j hj
    simp only [TodoList.mark_task_complete, hpy, ht, TodoList.save_tasks]
    exact List.get?_set_ne _ _ (Ne.symm hj)
  · simp only [TodoList.mark_task_complete, hpy, ht, TodoList.save_tasks]
    exact List.get?_set_eq_of_lt _ hklt

/-- Witness for C8: a two-task store, index 1. -/
theorem claim_c8_mark_frame_witness :
    (TodoList.mark_task_complete
        ⟨[⟨"a", "high", none, false, ⟨2024, 1, 2, 3, 4, 5, 6⟩⟩,
          ⟨"b", "low", some "d", false, ⟨2025, 6, 7, 8, 9, 10, 11⟩⟩], .absent⟩ 1).2 = true ∧
    (TodoList.mark_task_complete
        ⟨[⟨"a", "high", none, false, ⟨2024, 1, 2, 3, 4, 5, 6⟩⟩,
          ⟨"b", "low", some "d", false, ⟨2025, 6, 7, 8, 9, 10, 11⟩⟩], .absent⟩ 1).1.tasks.length =
      ([⟨"a", "high", none, false, ⟨2024, 1, 2, 3, 4, 5, 6⟩⟩,
        ⟨"b", "low", some "d", false, ⟨2025, 6, 7, 8, 9, 10, 11⟩⟩] : List Task).length ∧
    (∀ j : Nat, j ≠ ((1 : Int) - 1).toNat →
      (TodoList.mark_task_complete
        ⟨[⟨"a", "high", none, false, ⟨2024, 1, 2, 3, 4, 5, 6⟩⟩,
          ⟨"b", "low", some "d", false, ⟨2025, 6, 7, 8, 9, 10, 11⟩⟩], .absent⟩ 1).1.tasks.get? j =
      ([⟨"a", "high", none, false, ⟨2024, 1, 2, 3, 4, 5, 6⟩⟩,
        ⟨"b", "low", some "d", false, ⟨2025, 6, 7, 8, 9, 10, 11⟩⟩] : List Task).get? j) ∧
    (∃ t, ([⟨"a", "high", none, false, ⟨2024, 1, 2, 3, 4, 5, 6⟩⟩,
        ⟨"b", "low", some "d", false, ⟨2025, 6, 7, 8, 9, 10, 11⟩⟩] : List Task).get?
          ((1 : Int) - 1).toNat = some t ∧
      (TodoList.mark_task_complete
        ⟨[⟨"a", "high", none, false, ⟨2024, 1, 2, 3, 4, 5, 6⟩⟩,
          ⟨"b", "low", some "d", false, ⟨2025, 6, 7, 8, 9, 10, 11⟩⟩], .absent⟩ 1).1.tasks.get?
          ((1 : Int) - 1).toNat =
        some ⟨t.description, t.priority, t.due_date, true, t.created_at⟩) :=
  claim_c8_mark_frame
    ⟨[⟨"a", "high", none, false, ⟨2024, 1, 2, 3, 4, 5, 6⟩⟩,
      ⟨"b", "low", some "d", false, ⟨2025, 6, 7, 8, 9, 10, 11⟩⟩], .absent⟩ 1
    (by decide) (by decide)

/-- C9: a non-positive index with 1 - length ≤ i ≤ 0 is NOT reported
invalid: Python negative indexing makes mark/remove act on the record at
1-based position length + i and save; in particular index 0 acts on the
last record. -/
theorem claim_c9_negative_wrap (s : TodoList) (i : Int)
    (h1 : 1 - (s.tasks.length : Int) ≤ i) (h2 : i ≤ 0) :
    (s.mark_task_complete i).2 = true ∧
    (s.remove_task i).2 = true ∧
    (∃ t, s.tasks.get? ((s.tasks.length : Int) + i - 1).toNat = some t ∧
      (s.mark_task_complete i).1 = TodoList.save_tasks
        ⟨s.tasks.set ((s.tasks.length : Int) + i - 1).toNat
          ⟨t.description, t.priority, t.due_date, true, t.created_at⟩, s.file⟩) ∧
    (s.remove_task i).1 = TodoList.save_tasks
      ⟨s.tasks.eraseIdx ((s.tasks.length : Int) + i - 1).toNat, s.file⟩ := by
  have hklt : ((s.tasks.length : Int) + i - 1).toNat < s.tasks.length := by omega
  have hpy : pyIndex s.tasks.length (i - 1) =
      some ((s.tasks.length : Int) + i - 1).toNat := by
    unfold pyIndex
    rw [if_neg (show ¬(0 : Int) ≤ i - 1 by omega),
      if_pos (show (0 : Int) ≤ i - 1 + (s.tasks.length : Int) by omega)]
    congr 1
    omega
  obtain ⟨t, ht⟩ : ∃ t, s.tasks.get? ((s.tasks.length : Int) + i - 1).toNat = some t := by
    rw [List.get?_eq_getElem?, List.getElem?_eq_getElem hklt]
    exact ⟨_, rfl⟩
  refine ⟨?_, ?_, ⟨t, ht, ?_⟩, ?_⟩
  · simp only [TodoList.mark_task_complete, hpy, ht]
  · simp only [TodoList.remove_task, hpy]
  · simp only [TodoList.mark_task_complete, hpy, ht]
  · simp only [TodoList.remove_task, hpy]

/-- Witness for C9: a two-task store, index 0 acts on the last record. -/
theorem claim_c9_negative_wrap_witness :
    (TodoList.mark_task_complete
        ⟨[⟨"a", "high", none, false, ⟨2024, 1, 2, 3, 4, 5, 6⟩⟩,
          ⟨"b", "low", none, false, ⟨2025, 6, 7, 8, 9, 10, 11⟩⟩], .absent⟩ 0).2 = true ∧
    (TodoList.remove_task
        ⟨[⟨"a", "high", none, false, ⟨2024, 1, 2, 3, 4, 5, 6⟩⟩,
          ⟨"b", "low", none, false, ⟨2025, 6, 7, 8, 9, 10, 11⟩⟩], .absent⟩ 0).2 = true ∧
    (∃ t, ([⟨"a", "high", none, false, ⟨2024, 1, 2, 3, 4, 5, 6⟩⟩,
        ⟨"b", "low", none, false, ⟨2025, 6, 7, 8, 9, 10, 11⟩⟩] : List Task).get?
          (((2 : Nat) : Int) + 0 - 1).toNat = some t ∧
      (TodoList.mark_task_complete
        ⟨[⟨"a", "high", none, false, ⟨2024, 1, 2, 3, 4, 5, 6⟩⟩,
          ⟨"b", "low", none, false, ⟨2025, 6, 7, 8, 9, 10, 11⟩⟩], .absent⟩ 0).1 =
        TodoList.save_tasks
          ⟨([⟨"a", "high", none, false, ⟨2024, 1, 2, 3, 4, 5, 6⟩⟩,
             ⟨"b", "low", none, false, ⟨2025, 6, 7, 8, 9, 10, 11⟩⟩] : List Task).set
              (((2 : Nat) : Int) + 0 - 1).toNat
              ⟨t.description, t.priority, t.due_date, true, t.created_at⟩, .absent⟩) ∧
    (TodoList.remove_task
        ⟨[⟨"a", "high", none, false, ⟨2024, 1, 2, 3, 4, 5, 6⟩⟩,
          ⟨"b", "low", none, false, ⟨2025, 6, 7, 8, 9, 10, 11⟩⟩], .absent⟩ 0).1 =
      TodoList.save_tasks
        ⟨([⟨"a", "high", none, false, ⟨2024, 1, 2, 3, 4, 5, 6⟩⟩,
           ⟨"b", "low", none, false, ⟨2025, 6, 7, 8, 9, 10, 11⟩⟩] : List Task).eraseIdx
            (((2 : Nat) : Int) + 0 - 1).toNat, .absent⟩ :=
  claim_c9_negative_wrap
    ⟨[⟨"a", "high", none, false, ⟨2024, 1, 2, 3, 4, 5, 6⟩⟩,
      ⟨"b", "low", none, false, ⟨2025, 6, 7, 8, 9, 10, 11⟩⟩], .absent⟩ 0
    (by decide) (by decide)

end Todo
